import Mathlib

/-!
Verification of the news_extractor_engine runtime core against its
natural-language specification. The Python source is shallowly embedded:
pure computations become Lean functions, the mutable object state of each
component becomes an explicit state record threaded through the functions,
external library calls (HTTP fetch, feedparser, strptime, newspaper,
urlparse, json) are taken as function parameters or as already-parsed
inputs, and Python exceptions become explicit error values.
-/

/-- Python exception kinds raised by the embedded code paths. -/
inductive PyErr
  | valueError (msg : String)
  | indexError
  | keyError
  | typeError
  | zeroDivisionError
deriving DecidableEq

/-! ## Data model: sources, feed entries, parsed feeds
From model/feed/ArticleSource.py and the feedparser result shape consumed
by engine/feed/FeedReader.py. -/

/-- model/feed/ArticleSource.py: the ArticleSource dataclass. -/
structure ArticleSource where
  id : String
  name : String
  domain : String
  rss_url : String
  categories : List String
deriving DecidableEq

/-- One entry of a parsed feed, with the fields FeedReader and the engine
read from it. `serialized` models the Python string representation
str(entry) that line 125 of FeedReader.py hashes. -/
structure FeedEntry where
  link : String
  title : String
  summary : String
  published : Option String
  updated : Option String
  serialized : String
deriving DecidableEq

/-- The parsed feed as consumed by FeedReader: the bozo flag, the optional
textual date fields probed by FeedReader.__update_feed_update_time
(top-level published/updated and the nested feed dict's updated), and the
entry list. An absent dict key is `none`. -/
structure Feed where
  bozo : Bool
  published : Option String
  updated : Option String
  feed_updated : Option String
  entries : List FeedEntry
deriving DecidableEq

/-! ## FeedReader state and cache protocol
From engine/feed/FeedReader.py. Datetimes are modelled as integer
timestamps. The externally supplied zmq socket is modelled by the
`socket_set` flag; the JSON round trips on it become an input reply per
request plus the list of requests the call sent. -/

/-- The mutable attributes of a FeedReader object (FeedReader.py lines
41-49): source, min_refresh_interval, the cache socket (modelled by
whether it has been set), the two datetime fields, the stored feed, the
novelty flag and the last first-entry hash (initially 0). -/
structure FeedReaderState where
  source : ArticleSource
  min_refresh_interval : Int
  socket_set : Bool
  feed_last_updated_on : Option Int
  feed_last_refresh_on : Option Int
  feed : Feed
  has_updated_since_last_request : Bool
  last_feed_item_hash : Int
deriving DecidableEq

/-- A JSON request sent on the cache service socket by fetch_feed. -/
inductive CacheRequest
  | get (key : Int)
  | set (key : Int) (value : String)
deriving DecidableEq

/-- Whether a cache request is a set request. -/
def CacheRequest.isSet : CacheRequest → Bool
  | .get _ => false
  | .set _ _ => true

/-- The JSON value recv_json returns to FeedReader, as far as fetch_feed
inspects it: whether it is a dict, and the results of .get("value") and
.get("status") when it is. -/
structure CacheJsonReply where
  isDict : Bool
  value : Option String
  status : Option String
deriving DecidableEq

/-- First strptime format tried by FeedReader.__update_feed_update_time. -/
def date_format_tz_offset : String := "%a, %d %b %Y %H:%M:%S %z"

/-- Second strptime format tried by FeedReader.__update_feed_update_time. -/
def date_format_tz_name : String := "%a, %d %b %Y %H:%M:%S %Z"

/-- One iteration of the format loop in FeedReader.__update_feed_update_time
(lines 81-105): the if/elif chain picks the first PRESENT field among
feed.published, feed.updated, feed.feed.updated, entries[0].published,
entries[0].updated and applies strptime (parameter `parse`, given the
format and the text, `none` when strptime raises ValueError) to it.
A failed parse is the ValueError the loop catches; reaching the
entries[0] branches with an empty entry list is an uncaught IndexError.
If no field is present the iteration assigns nothing. -/
def FeedReader.attemptParseForFormat (parse : String → String → Option Int)
    (fmt : String) (feed : Feed) : Except PyErr (Option Int) :=
  match feed.published with
  | some s =>
    match parse fmt s with
    | some d => .ok (some d)
    | none => .error (.valueError "strptime")
  | none =>
  match feed.updated with
  | some s =>
    match parse fmt s with
    | some d => .ok (some d)
    | none => .error (.valueError "strptime")
  | none =>
  match feed.feed_updated with
  | some s =>
    match parse fmt s with
    | some d => .ok (some d)
    | none => .error (.valueError "strptime")
  | none =>
  match feed.entries with
  | [] => .error .indexError
  | e :: _ =>
  match e.published with
  | some s =>
    match parse fmt s with
    | some d => .ok (some d)
    | none => .error (.valueError "strptime")
  | none =>
  match e.updated with
  | some s =>
    match parse fmt s with
    | some d => .ok (some d)
    | none => .error (.valueError "strptime")
  | none => .ok none

/-- Lines 107-111 of FeedReader.py: the parsed time replaces the stored one
when it parsed; the source's extra `current != new` guard only skips a
write of an identical value, so the resulting value is the same. -/
def FeedReader.applyParsed (new current : Option Int) : Option Int :=
  match new with
  | some d => some d
  | none => current

/-- FeedReader.__update_feed_update_time (lines 78-111): try the format
loop with the first format; on its ValueError retry with the second; on a
second ValueError fall through with nothing parsed. Any other exception
(IndexError) propagates. -/
def FeedReader.update_feed_update_time (parse : String → String → Option Int)
    (feed : Feed) (current : Option Int) : Except PyErr (Option Int) :=
  match FeedReader.attemptParseForFormat parse date_format_tz_offset feed with
  | .ok new => .ok (FeedReader.applyParsed new current)
  | .error (.valueError _) =>
    match FeedReader.attemptParseForFormat parse date_format_tz_name feed with
    | .ok new => .ok (FeedReader.applyParsed new current)
    | .error (.valueError _) => .ok (FeedReader.applyParsed none current)
    | .error e => .error e
  | .error e => .error e

/-- Result of one fetch_feed call: the object state when the call leaves
(Python keeps mutations made before an exception), the cache requests sent,
and the exception if one was raised. -/
structure FetchOutcome where
  state : FeedReaderState
  requests : List CacheRequest
  error : Option PyErr
deriving DecidableEq

/-- Lines 153-155 of FeedReader.py, shared by both branches: store the
feed, set last_refresh_on to now, then update the feed update time (which
can itself raise after the first two mutations). -/
def FeedReader.finishFetch (parse : String → String → Option Int) (now : Int)
    (feed : Feed) (reqs : List CacheRequest) (st : FeedReaderState) : FetchOutcome :=
  let st2 := { st with feed := feed, feed_last_refresh_on := some now }
  match FeedReader.update_feed_update_time parse feed st.feed_last_updated_on with
  | .ok upd => ⟨{ st2 with feed_last_updated_on := upd }, reqs, none⟩
  | .error e => ⟨st2, reqs, some e⟩

/-- FeedReader.fetch_feed (lines 113-156). The HTTP fetch and feedparser
parse are modelled by taking the parsed `feed` as input; `hashEntry`
models hash(str(entry)); `getReply` and `setReply` are the JSON replies
recv_json returns for the two possible requests; `nowIso` models
datetime.now().isoformat(). Mutations made before a raised exception are
kept in the returned state, as in Python. -/
def FeedReader.fetch_feed (hashEntry : FeedEntry → Int)
    (parse : String → String → Option Int) (now : Int) (nowIso : String)
    (feed : Feed) (getReply setReply : CacheJsonReply)
    (st : FeedReaderState) : FetchOutcome :=
  if st.socket_set = false then
    ⟨st, [], some (.valueError "Cache service socket not set")⟩
  else if feed.bozo then
    ⟨st, [], some (.valueError "Invalid feed XML")⟩
  else
    match feed.entries with
    | [] => ⟨st, [], some .indexError⟩
    | e0 :: _ =>
      let latest := hashEntry e0
      if st.last_feed_item_hash ≠ latest ∧ getReply.isDict = true ∧
          getReply.value = some "NA" then
        let st1 := { st with has_updated_since_last_request := true,
                             last_feed_item_hash := latest }
        if setReply.isDict = true ∧ setReply.status ≠ some "success" then
          ⟨st1, [.get latest, .set latest nowIso], some (.valueError "Cache set failed")⟩
        else
          FeedReader.finishFetch parse now feed [.get latest, .set latest nowIso] st1
      else
        FeedReader.finishFetch parse now feed [.get latest] st

/-- The FeedReaderData snapshot dataclass (FeedReader.py lines 12-18). -/
structure FeedReaderData where
  source : ArticleSource
  feed_last_updated_on : Option Int
  feed_last_refresh_on : Option Int
  feed : Feed
  has_updated_since_last_request : Bool
deriving DecidableEq

/-- Result of one get_feed call: the returned snapshot (none when an
exception propagated), the state left behind, the cache requests sent and
the propagated exception if any. -/
structure GetFeedOutcome where
  data : Option FeedReaderData
  state : FeedReaderState
  requests : List CacheRequest
  error : Option PyErr
deriving DecidableEq

/-- The refresh condition of get_feed (lines 159-165): last refresh is
None or strictly before now minus min_refresh_interval. -/
def FeedReader.needsRefresh (now : Int) (st : FeedReaderState) : Bool :=
  match st.feed_last_refresh_on with
  | none => true
  | some r => decide (r < now - st.min_refresh_interval)

/-- FeedReader.get_feed (lines 158-175): conditionally fetch, then build
the snapshot carrying the current novelty flag and clear the flag. When
fetch_feed raises, the exception propagates and the flag is not cleared. -/
def FeedReader.get_feed (hashEntry : FeedEntry → Int)
    (parse : String → String → Option Int) (now : Int) (nowIso : String)
    (feed : Feed) (getReply setReply : CacheJsonReply)
    (st : FeedReaderState) : GetFeedOutcome :=
  let fo :=
    if FeedReader.needsRefresh now st then
      FeedReader.fetch_feed hashEntry parse now nowIso feed getReply setReply st
    else ⟨st, [], none⟩
  match fo.error with
  | some e => ⟨none, fo.state, fo.requests, some e⟩
  | none =>
    let d : FeedReaderData := ⟨fo.state.source, fo.state.feed_last_updated_on,
      fo.state.feed_last_refresh_on, fo.state.feed,
      fo.state.has_updated_since_last_request⟩
    ⟨some d, { fo.state with has_updated_since_last_request := false }, fo.requests, none⟩

/-- The varying inputs of one fetch_feed call in a call sequence: the
parsed upstream feed, the two cache replies and the wall clock. -/
structure FetchInput where
  feed : Feed
  getReply : CacheJsonReply
  setReply : CacheJsonReply
  now : Int
  nowIso : String
deriving DecidableEq

/-- Run fetch_feed over a list of inputs, threading the object state from
each call into the next (also through calls that raised, as the Python
object keeps its mutations). -/
def FeedReader.fetch_feed_runs (hashEntry : FeedEntry → Int)
    (parse : String → String → Option Int) (st : FeedReaderState) :
    List FetchInput → List FetchOutcome
  | [] => []
  | i :: is =>
    let out := FeedReader.fetch_feed hashEntry parse i.now i.nowIso i.feed
      i.getReply i.setReply st
    out :: FeedReader.fetch_feed_runs hashEntry parse out.state is

/-! ## Engine: adaptive refresh interval
From engine/engine.py lines 216-223 (Engine.__run_feed_sync_cycle). Python
floats are modelled as rationals; the timestamps now/last_updated are the
POSIX timestamps the source subtracts. -/

/-- Python's % on numbers: x % y = x - y * floor(x / y), defined for
y ≠ 0 (the y = 0 case raises ZeroDivisionError at the call site). -/
def pymod (x y : ℚ) : ℚ := x - y * (⌊x / y⌋ : ℚ)

/-- Engine.__run_feed_sync_cycle lines 216-223: when the feed declares a
ttl the refresh time becomes ttl*60; if a last update time is known, the
elapsed time modulo the new refresh time is subtracted (a ZeroDivisionError
when ttl*60 = 0); then the refresh buffer is added. Without a ttl the
previous refresh time is kept. -/
def Engine.run_feed_sync_refresh_time (ttl : Option ℚ) (last_updated : Option ℚ)
    (now prev_refresh buffer : ℚ) : Except PyErr ℚ :=
  match ttl with
  | none => .ok prev_refresh
  | some t =>
    let rt := t * 60
    match last_updated with
    | none => .ok (rt + buffer)
    | some lu =>
      if rt = 0 then .error .zeroDivisionError
      else .ok (rt - pymod (now - lu) rt + buffer)

/-! ## ZMQSocketPool
From engine/engine.py lines 18-156. Sockets are modelled by numeric
handles; the endpoint each handle is connected to lives in an association
list mirroring self.socket_endpoints; the counting semaphore is modelled
by its remaining permits. Operations are the completed critical sections
(the code mutates under self.lock). -/

/-- The constructor limits of a ZMQSocketPool. -/
structure ZMQSocketPoolConfig where
  max_pool_size : Nat
  max_concurrent_users : Nat
deriving DecidableEq

/-- The mutable state of a ZMQSocketPool. -/
structure ZMQSocketPoolState where
  available_sockets : List Nat
  socket_endpoints : List (Nat × String)
  in_use_count : Nat
  sem_permits : Nat
  next_socket_id : Nat
deriving DecidableEq

/-- A freshly constructed pool: no sockets, no users, all permits free. -/
def ZMQSocketPool.initState (cfg : ZMQSocketPoolConfig) : ZMQSocketPoolState :=
  ⟨[], [], 0, cfg.max_concurrent_users, 0⟩

/-- self.socket_endpoints.get(id(sock)). -/
def ZMQSocketPool.lookupEndpoint (m : List (Nat × String)) (s : Nat) : Option String :=
  match m.find? (fun p => p.1 == s) with
  | some p => some p.2
  | none => none

/-- self.socket_endpoints[id(sock)] = endpoint. -/
def ZMQSocketPool.storeEndpoint (m : List (Nat × String)) (s : Nat) (ep : String) :
    List (Nat × String) :=
  (s, ep) :: m.filter (fun p => !(p.1 == s))

/-- The loop at engine.py lines 78-87: find and remove the first available
socket already connected to the endpoint, keeping the order of the rest. -/
def ZMQSocketPool.extractFirstForEndpoint (ep : String) (m : List (Nat × String)) :
    List Nat → Option (Nat × List Nat)
  | [] => none
  | s :: rest =>
    if ZMQSocketPool.lookupEndpoint m s = some ep then some (s, rest)
    else
      match ZMQSocketPool.extractFirstForEndpoint ep m rest with
      | some (t, rest') => some (t, s :: rest')
      | none => none

/-- Result of get_socket_async: a socket and the new pool state, or the
TimeoutError path (semaphore never acquired, or pool empty at the size
limit), which leaves the pool state unchanged because the only mutation
before the raise, the semaphore acquisition, is released in the except
block. -/
inductive PoolResult
  | ok (sock : Nat) (st : ZMQSocketPoolState)
  | timeout
deriving DecidableEq

/-- ZMQSocketPool.get_socket_async (engine.py lines 50-119): acquire the
semaphore (fails when no permit frees within the timeout, modelled as no
permit available); then prefer an available socket on this endpoint, else
reconnect the oldest available socket, else create a new socket while
in_use_count < max_pool_size, else raise TimeoutError. -/
def ZMQSocketPool.get_socket_async (cfg : ZMQSocketPoolConfig)
    (st : ZMQSocketPoolState) (endpoint : String) : PoolResult :=
  if st.sem_permits = 0 then .timeout
  else
    match ZMQSocketPool.extractFirstForEndpoint endpoint st.socket_endpoints
        st.available_sockets with
    | some (sock, rest) =>
      .ok sock { st with available_sockets := rest,
                         in_use_count := st.in_use_count + 1,
                         sem_permits := st.sem_permits - 1 }
    | none =>
      match st.available_sockets with
      | sock :: rest =>
        .ok sock { st with available_sockets := rest,
                           socket_endpoints :=
                             ZMQSocketPool.storeEndpoint st.socket_endpoints sock endpoint,
                           in_use_count := st.in_use_count + 1,
                           sem_permits := st.sem_permits - 1 }
      | [] =>
        if st.in_use_count < cfg.max_pool_size then
          .ok st.next_socket_id
            { st with socket_endpoints :=
                        ZMQSocketPool.storeEndpoint st.socket_endpoints
                          st.next_socket_id endpoint,
                      in_use_count := st.in_use_count + 1,
                      sem_permits := st.sem_permits - 1,
                      next_socket_id := st.next_socket_id + 1 }
        else .timeout

/-- ZMQSocketPool.return_socket (engine.py lines 121-142): when the idle
list has reached max_pool_size, close the oldest idle socket; then append
the returned socket, decrement in_use_count and release the semaphore. -/
def ZMQSocketPool.return_socket (cfg : ZMQSocketPoolConfig)
    (st : ZMQSocketPoolState) (sock : Nat) : ZMQSocketPoolState :=
  let st1 :=
    if cfg.max_pool_size ≤ st.available_sockets.length then
      match st.available_sockets with
      | [] => st
      | old :: rest =>
        { st with available_sockets := rest,
                  socket_endpoints := st.socket_endpoints.filter (fun p => !(p.1 == old)) }
    else st
  { st1 with available_sockets := st1.available_sockets ++ [sock],
             in_use_count := st1.in_use_count - 1,
             sem_permits := st1.sem_permits + 1 }

/-- ZMQSocketPool.close_all (engine.py lines 144-156): close every idle
socket (popping their endpoint entries), empty the idle list and zero the
in-use counter. The semaphore is not touched by the source. -/
def ZMQSocketPool.close_all (st : ZMQSocketPoolState) : ZMQSocketPoolState :=
  { st with available_sockets := [],
            socket_endpoints :=
              st.socket_endpoints.filter (fun p => !(st.available_sockets.contains p.1)),
            in_use_count := 0 }

/-- Pool states reachable from a fresh pool by completed operations: a
successful or timed-out get (a timeout leaves the state unchanged, so it
needs no constructor), a return of one of the handles currently in use,
and close_all. -/
inductive ZMQSocketPool.Reachable (cfg : ZMQSocketPoolConfig) : ZMQSocketPoolState → Prop
  | init : ZMQSocketPool.Reachable cfg (ZMQSocketPool.initState cfg)
  | get_ok (st : ZMQSocketPoolState) (ep : String) (sock : Nat)
      (st' : ZMQSocketPoolState) :
      ZMQSocketPool.Reachable cfg st →
      ZMQSocketPool.get_socket_async cfg st ep = .ok sock st' →
      ZMQSocketPool.Reachable cfg st'
  | ret (st : ZMQSocketPoolState) (sock : Nat) :
      ZMQSocketPool.Reachable cfg st → 0 < st.in_use_count →
      ZMQSocketPool.Reachable cfg (ZMQSocketPool.return_socket cfg st sock)
  | close (st : ZMQSocketPoolState) :
      ZMQSocketPool.Reachable cfg st →
      ZMQSocketPool.Reachable cfg (ZMQSocketPool.close_all st)

/-! ## KafkaProducerManager
From engine/kafka_manager.py. The bounded FIFO is the message queue; its
entries are the (key, value) pairs offered by publish_message — the UTF-8
JSON encoding of the value dict never fails for the string-valued records
the engine builds, so the encode step is modelled as packaging the record
itself. -/

/-- KafkaProducerManager.__QUEUE_MAX_SIZE. -/
def KafkaProducerManager.QUEUE_MAX_SIZE : Nat := 10000

/-- The manager state publish_message reads: fallback mode (no producer
could be created), the shutdown event, and the bounded message queue. -/
structure KafkaManagerState where
  fallback_mode : Bool
  shutdown : Bool
  message_queue : List (String × List (String × String))
deriving DecidableEq

/-- KafkaProducerManager.publish_message (kafka_manager.py lines 214-260):
false immediately in fallback mode or after shutdown; otherwise offer the
serialized message to the bounded FIFO, true on success and false when the
queue stays full for the offer timeout (modelled as the queue being full). -/
def KafkaProducerManager.publish_message (st : KafkaManagerState) (key : String)
    (value : List (String × String)) : Bool × KafkaManagerState :=
  if st.fallback_mode || st.shutdown then (false, st)
  else if st.message_queue.length < KafkaProducerManager.QUEUE_MAX_SIZE then
    (true, { st with message_queue := st.message_queue ++ [(key, value)] })
  else (false, st)

/-! ## Article model and the extraction pipeline
From model/feed/Article.py, engine/scraper/ArticleSpider.py and
engine/SpiderTaskQue.py. -/

/-- The field names of the Article dataclass in model/feed/Article.py, in
declaration order. Note the dataclass declares no id field. -/
def Article_dataclass_fields : List String :=
  ["title", "author", "publication_date", "source", "url", "summary",
   "content", "tags", "categories", "images"]

/-- The keyword-argument names ArticleSpider.__scrape_data passes to the
Article constructor (ArticleSpider.py lines 94-106), in call order. -/
def ArticleSpider_scrape_data_kwargs : List String :=
  ["id", "title", "author", "publication_date", "source", "url", "summary",
   "content", "tags", "categories", "images"]

/-- The result of newspaper's download+parse for one URL (the external
news.Article object), with the attributes ArticleSpider reads. Sets
(tags, images) are modelled as lists of their elements. -/
structure NewsArticle where
  title : String
  authors : List String
  publish_date : Option Int
  url : String
  summary : String
  text : String
  tags : List String
  images : List String
deriving DecidableEq

/-- The article record ArticleSpider.__scrape_data assembles and passes to
the Article constructor: one value per keyword argument of the call,
including the id (a fresh ObjectId, modelled by its string form) that the
Article dataclass itself does not declare — in Python the construction
therefore raises TypeError; this record is the data the call supplies. -/
structure SpiderArticleRecord where
  id : String
  title : String
  author : List String
  publication_date : Option Int
  source : ArticleSource
  url : String
  summary : String
  content : String
  tags : List String
  categories : List String
  images : List String
deriving DecidableEq

/-- ArticleSpider.extract_data (ArticleSpider.py lines 80-107): download
and parse the URL with newspaper (parameter `download`), then assemble the
record from the parsed article and the source; `newId` models the fresh
ObjectId(). No field of `source` other than the object itself is consulted
and no domain comparison is performed. -/
def ArticleSpider.extract_data (newId : String) (download : String → NewsArticle)
    (url : String) (source : ArticleSource) : SpiderArticleRecord :=
  let a := download url
  ⟨newId, a.title, a.authors, a.publish_date, source, a.url, a.summary,
   a.text, a.tags, [], a.images⟩

/-- Errors raised by ArticleScraper (model/error/Scraper.py). -/
inductive ScraperErr
  | invalidDomainInArticleUrl
deriving DecidableEq

/-- urlparse(url).netloc for the http(s) URLs in play: the text after the
first "://" up to the next "/". Models the stdlib call. -/
def urlNetlocAux : List Char → List Char
  | [] => []
  | ':' :: '/' :: '/' :: rest => rest
  | _ :: rest => urlNetlocAux rest

/-- Take the host part: everything before the next "/". -/
def urlNetlocHost : List Char → List Char
  | [] => []
  | '/' :: _ => []
  | c :: rest => c :: urlNetlocHost rest

/-- urlparse(url).netloc. -/
def urlNetloc (url : String) : String :=
  String.mk (urlNetlocHost (urlNetlocAux url.data))

/-- ArticleScraper.fetch_article (ArticleScraper.py lines 39-46, the
xpath-based scraper that the live extraction path does not use): raise
InvalidDomainInArticleUrlException when the URL's netloc differs from the
scraper's domain, else fetch and parse (the parsed result is the
`parsed` parameter). -/
def ArticleScraper.fetch_article (netloc : String → String) (domain : String)
    (url : String) (parsed : List (String × String)) :
    Except ScraperErr (List (String × String)) :=
  if netloc url ≠ domain then .error .invalidDomainInArticleUrl
  else .ok parsed

/-- " ,".join(values): the joining SpiderTaskQue.__mine_article applies to
non-empty collections. -/
def joinSpaceComma : List String → String
  | [] => ""
  | [s] => s
  | s :: rest => s ++ " ," ++ joinSpaceComma rest

/-- The per-field normalization loop of SpiderTaskQue.__mine_article for
collection values: empty becomes the sentinel "NULL", non-empty is joined
with " ,". -/
def SpiderTaskQue.normalizeCollection (l : List String) : String :=
  if l.isEmpty then "NULL" else joinSpaceComma l

/-- SpiderTaskQue.__mine_article lines 135-155 applied to the record the
extraction produced: stringify the id (already in string form in the
model), replace the source by its name, format a datetime
publication_date with strftime("%Y-%m-%dT%H:%M:%S.%f%z") (parameter
`fmtDT`), then map collections to "NULL"/joined strings and None to
"NULL". The result is the kafka_article dict in its insertion order. -/
def SpiderTaskQue.kafkaNormalize (fmtDT : Int → String)
    (a : SpiderArticleRecord) : List (String × String) :=
  [("id", a.id),
   ("title", a.title),
   ("author", SpiderTaskQue.normalizeCollection a.author),
   ("publication_date",
     match a.publication_date with
     | some d => fmtDT d
     | none => "NULL"),
   ("source", a.source.name),
   ("url", a.url),
   ("summary", a.summary),
   ("content", a.content),
   ("tags", SpiderTaskQue.normalizeCollection a.tags),
   ("categories", SpiderTaskQue.normalizeCollection a.categories),
   ("images", SpiderTaskQue.normalizeCollection a.images)]

/-- A value of the delta_article dict built for the DeltaLake fallback:
scalars are wrapped in a singleton list for the DataFrame, collections
and nulls become plain strings. -/
inductive DeltaVal
  | wrapped (v : String)
  | plain (v : String)
deriving DecidableEq

/-- SpiderTaskQue.__mine_article lines 169-181: the DeltaLake row built
from the same mutated article dict when Kafka publishing failed. -/
def SpiderTaskQue.deltaNormalize (fmtDT : Int → String)
    (a : SpiderArticleRecord) : List (String × DeltaVal) :=
  [("id", .wrapped a.id),
   ("title", .wrapped a.title),
   ("author",
     if a.author.isEmpty then .plain "NULL" else .plain (joinSpaceComma a.author)),
   ("publication_date",
     match a.publication_date with
     | some d => .wrapped (fmtDT d)
     | none => .plain "NULL"),
   ("source", .wrapped a.source.name),
   ("url", .wrapped a.url),
   ("summary", .wrapped a.summary),
   ("content", .wrapped a.content),
   ("tags",
     if a.tags.isEmpty then .plain "NULL" else .plain (joinSpaceComma a.tags)),
   ("categories",
     if a.categories.isEmpty then .plain "NULL" else .plain (joinSpaceComma a.categories)),
   ("images",
     if a.images.isEmpty then .plain "NULL" else .plain (joinSpaceComma a.images))]

/-- Where one extraction job's record ended up: published to the message
bus, or appended as one row to the DeltaLake table sink. -/
inductive MineRoute
  | kafka (record : List (String × String))
  | delta (row : List (String × DeltaVal))
deriving DecidableEq

/-- Whether the route is the table-sink fallback. -/
def MineRoute.isDelta : MineRoute → Bool
  | .kafka _ => false
  | .delta _ => true

/-- SpiderTaskQue.__mine_article lines 135-189 on the record the
extraction produced: normalize for Kafka, publish via the manager, and on
a false return write one DeltaLake row built from the same dict. -/
def SpiderTaskQue.mine_article_transport (fmtDT : Int → String)
    (st : KafkaManagerState) (a : SpiderArticleRecord) :
    MineRoute × KafkaManagerState :=
  let record := SpiderTaskQue.kafkaNormalize fmtDT a
  let r := KafkaProducerManager.publish_message st a.id record
  if r.1 then (.kafka record, r.2)
  else (.delta (SpiderTaskQue.deltaNormalize fmtDT a), r.2)

/-! ## CacheServiceManager
From cache/CacheServiceManager.py. The TTL cache is modelled as an
insertion-ordered association list with the capacity bound; wall-clock
TTL expiry is outside the model and irrelevant to the handled claims. -/

/-- TTLCache maxsize (CacheServiceManager.py line 34). -/
def CacheServiceManager.CACHE_MAXSIZE : Nat := 10000

/-- CacheServiceManager.get_item: TTLCache.get, None when absent. -/
def CacheServiceManager.get_item (cache : List (Int × String)) (k : Int) :
    Option String :=
  match cache.find? (fun p => p.1 == k) with
  | some p => some p.2
  | none => none

/-- CacheServiceManager.set_item: TTLCache assignment — update an existing
key in place, else evict the oldest entry when full and append. The
source's set_item returns False only when the assignment raises, which the
modelled assignment never does. -/
def CacheServiceManager.set_item (cache : List (Int × String)) (k : Int)
    (v : String) : List (Int × String) :=
  if (cache.find? (fun p => p.1 == k)).isSome then
    cache.map (fun p => if p.1 == k then (k, v) else p)
  else if CacheServiceManager.CACHE_MAXSIZE ≤ cache.length then
    cache.drop 1 ++ [(k, v)]
  else cache ++ [(k, v)]

/-- One inbound JSON payload as the service loop inspects it: either not a
dict, or a dict with optional action/key/value entries. -/
inductive CacheMsg
  | notDict
  | obj (action : Option String) (key : Option Int) (value : Option String)
deriving DecidableEq

/-- A JSON reply sent by the cache service. -/
structure CacheServiceReply where
  status : String
  value : Option String
  error : Option String
deriving DecidableEq

/-- One iteration of CacheServiceManager.run handling a received message
(lines 57-95): a non-dict is ignored without a reply; message["action"] on
a dict without that key raises KeyError, which the outer handler answers
with a failed reply; action "get" answers with the cached value or "NA"
(a missing "key" again becomes a KeyError failed reply); action "set"
stores and answers success (missing "key"/"value" as before); any other
action falls through both branches and no reply is sent. Returns the
optional reply and the cache afterwards. -/
def CacheServiceManager.handle_request (cache : List (Int × String))
    (msg : CacheMsg) : Option CacheServiceReply × List (Int × String) :=
  match msg with
  | .notDict => (none, cache)
  | .obj action key value =>
    match action with
    | none => (some ⟨"failed", none, some "Cache Service Error: (KeyError) action"⟩, cache)
    | some a =>
      if a = "get" then
        match key with
        | none => (some ⟨"failed", none, some "Cache Service Error: (KeyError) key"⟩, cache)
        | some k =>
          match CacheServiceManager.get_item cache k with
          | none => (some ⟨"success", some "NA", none⟩, cache)
          | some v => (some ⟨"success", some v, none⟩, cache)
      else if a = "set" then
        match key with
        | none => (some ⟨"failed", none, some "Cache Service Error: (KeyError) key"⟩, cache)
        | some k =>
          match value with
          | none => (some ⟨"failed", none, some "Cache Service Error: (KeyError) value"⟩, cache)
          | some v =>
            (some ⟨"success", none, none⟩, CacheServiceManager.set_item cache k v)
      else (none, cache)

/-! ## Amended description of the date parsing, and concrete inputs
used by counterexamples and witnesses. -/

/-- The date field the if/elif chain of __update_feed_update_time actually
consults: the first present one among feed.published, feed.updated,
feed.feed.updated, entries[0].published, entries[0].updated — chosen by
presence alone, identically in both format iterations. Reaching the entry
fields with no entries is the uncaught IndexError. -/
def FeedReader.chosen_date_field (feed : Feed) : Except PyErr (Option String) :=
  match feed.published with
  | some s => .ok (some s)
  | none =>
  match feed.updated with
  | some s => .ok (some s)
  | none =>
  match feed.feed_updated with
  | some s => .ok (some s)
  | none =>
  match feed.entries with
  | [] => .error .indexError
  | e :: _ =>
  match e.published with
  | some s => .ok (some s)
  | none =>
  match e.updated with
  | some s => .ok (some s)
  | none => .ok none

/-- The amended behaviour of __update_feed_update_time, stated the way the
corrected claim reads: pick the first PRESENT candidate field, try the two
formats on that field alone, first successful parse wins, otherwise the
stored value is unchanged; later candidate fields are never consulted. -/
def FeedReader.update_feed_update_time_amended (parse : String → String → Option Int)
    (feed : Feed) (current : Option Int) : Except PyErr (Option Int) :=
  match FeedReader.chosen_date_field feed with
  | .error e => .error e
  | .ok none => .ok current
  | .ok (some s) =>
    match parse date_format_tz_offset s with
    | some d => .ok (some d)
    | none =>
      match parse date_format_tz_name s with
      | some d => .ok (some d)
      | none => .ok current

/-- A strptime model for the C5 counterexample: "good" parses (in either
format), anything else raises ValueError. -/
def cexParseGoodOnly : String → String → Option Int :=
  fun _ s => if s = "good" then some 5 else none

/-- A feed whose top-level published is present but unparseable while its
top-level updated would parse. -/
def cexFeedPubBad : Feed := ⟨false, some "bad", some "good", none, []⟩

/-- A concrete feed entry. -/
def cexEntry : FeedEntry := ⟨"https://x/a", "T", "s", none, none, "E0"⟩

/-- A concrete parsed feed holding that single entry. -/
def cexFeed : Feed := ⟨false, none, none, none, [cexEntry]⟩

/-- A hash model giving the concrete entry the fingerprint 1 (distinct
from the initial stored fingerprint 0). -/
def cexHashEntry : FeedEntry → Int := fun e => if e.serialized = "E0" then 1 else 0

/-- A strptime model under which nothing parses. -/
def cexParseNone : String → String → Option Int := fun _ _ => none

/-- A concrete article source. -/
def cexSource : ArticleSource := ⟨"sid1", "Example", "x.com", "https://x.com/rss", []⟩

/-- A freshly initialised FeedReader for that source (hash 0, flag false,
no timestamps, socket supplied). -/
def cexState : FeedReaderState := ⟨cexSource, 10, true, none, none, cexFeed, false, 0⟩

/-- A cache get reply whose value is a stored timestamp (a cache hit). -/
def replyHit : CacheJsonReply := ⟨true, some "2025-01-01T00:00:00", none⟩

/-- A cache get reply whose value is the absence marker "NA". -/
def replyNA : CacheJsonReply := ⟨true, some "NA", none⟩

/-- A successful cache set reply. -/
def replySetOk : CacheJsonReply := ⟨true, none, some "success"⟩

/-- A failed cache set reply. -/
def replySetFail : CacheJsonReply := ⟨true, none, some "failed"⟩

/-! ## Theorems -/

/-- C4: for a poll cycle whose fetched feed declares ttl = T minutes, the
refresh time becomes T*60 - ((now - last_updated_at) mod T*60) +
feed_refresh_buffer when last_updated_at is known (T*60 nonzero so the
Python % is defined), and T*60 + feed_refresh_buffer when it is not; with
no declared ttl the previous refresh time (initially
feed_min_refresh_interval) is kept. In particular ttl=15,
last_updated_at=12:00:00Z, now=12:07:00Z, buffer=5s gives 485 seconds. -/
theorem engine_adaptive_refresh_interval :
    (∀ (t lu now prev buffer : ℚ), t * 60 ≠ 0 →
      Engine.run_feed_sync_refresh_time (some t) (some lu) now prev buffer =
        .ok (t * 60 - pymod (now - lu) (t * 60) + buffer)) ∧
    (∀ (t now prev buffer : ℚ),
      Engine.run_feed_sync_refresh_time (some t) none now prev buffer =
        .ok (t * 60 + buffer)) ∧
    (∀ (lu : Option ℚ) (now prev buffer : ℚ),
      Engine.run_feed_sync_refresh_time none lu now prev buffer = .ok prev) ∧
    Engine.run_feed_sync_refresh_time (some 15) (some 43200) 43620 10 5 = .ok 485 := by
  refine ⟨fun t lu now prev buffer h => ?_, fun t now prev buffer => rfl,
    fun lu now prev buffer => ?_, ?_⟩
  · simp only [Engine.run_feed_sync_refresh_time, if_neg h]
  · cases lu <;> rfl
  · have h60 : (15 : ℚ) * 60 ≠ 0 := by norm_num
    simp only [Engine.run_feed_sync_refresh_time, if_neg h60]
    have hfl : ⌊(((43620 : ℚ) - 43200) / (15 * 60))⌋ = (0 : ℤ) := by norm_num
    norm_num [pymod, hfl]

/-- Witness for C4 at the spec's own example numbers. -/
theorem engine_adaptive_refresh_interval_witness :
    Engine.run_feed_sync_refresh_time (some 15) (some 43200) 43620 10 5 =
      .ok ((15 : ℚ) * 60 - pymod ((43620 : ℚ) - 43200) ((15 : ℚ) * 60) + 5) :=
  engine_adaptive_refresh_interval.1 15 43200 43620 10 5 (by norm_num)

/-- C10: a received payload that is not a JSON object, or is an object
whose action is present but neither "get" nor "set", produces no reply at
all and leaves the cache untouched; only an object lacking the action key
is answered with a failed reply. -/
theorem cache_service_silent_on_unknown_requests :
    (∀ (cache : List (Int × String)),
      CacheServiceManager.handle_request cache .notDict = (none, cache)) ∧
    (∀ (cache : List (Int × String)) (a : String) (k : Option Int)
        (v : Option String), a ≠ "get" → a ≠ "set" →
      CacheServiceManager.handle_request cache (.obj (some a) k v) = (none, cache)) ∧
    (∀ (cache : List (Int × String)) (k : Option Int) (v : Option String),
      ∃ e, CacheServiceManager.handle_request cache (.obj none k v) =
        (some ⟨"failed", none, some e⟩, cache)) := by
  refine ⟨fun cache => rfl, fun cache a k v hg hs => ?_, fun cache k v => ⟨_, rfl⟩⟩
  simp only [CacheServiceManager.handle_request, if_neg hg, if_neg hs]

/-- Witness for C10: an unknown action "delete" gets no reply. -/
theorem cache_service_silent_witness :
    CacheServiceManager.handle_request [] (.obj (some "delete") none none) =
      (none, []) :=
  cache_service_silent_on_unknown_requests.2.1 [] "delete" none none
    (by decide) (by decide)

/-- C8: publish_message returns false immediately in fallback mode or
after shutdown; otherwise it returns true exactly when the message was
placed on the bounded FIFO (capacity 10,000), i.e. exactly when the queue
was not full for the offer, leaving the queue untouched on a false
return; and in the extraction job a false return is exactly what routes
the record to the table-sink fallback. -/
theorem publish_message_gate_and_fallback_routing :
    (∀ (st : KafkaManagerState) (key : String) (value : List (String × String)),
      ((st.fallback_mode = true ∨ st.shutdown = true) →
        KafkaProducerManager.publish_message st key value = (false, st)) ∧
      (st.fallback_mode = false → st.shutdown = false →
        (((KafkaProducerManager.publish_message st key value).1 = true) ↔
          st.message_queue.length < KafkaProducerManager.QUEUE_MAX_SIZE) ∧
        (((KafkaProducerManager.publish_message st key value).1 = true) ↔
          (KafkaProducerManager.publish_message st key value).2.message_queue =
            st.message_queue ++ [(key, value)]) ∧
        ((KafkaProducerManager.publish_message st key value).1 = false →
          (KafkaProducerManager.publish_message st key value).2 = st))) ∧
    (∀ (fmtDT : Int → String) (st : KafkaManagerState) (a : SpiderArticleRecord),
      (SpiderTaskQue.mine_article_transport fmtDT st a).1.isDelta = true ↔
        (KafkaProducerManager.publish_message st a.id
          (SpiderTaskQue.kafkaNormalize fmtDT a)).1 = false) := by
  constructor
  · intro st key value
    constructor
    · intro h
      unfold KafkaProducerManager.publish_message
      rcases h with h | h <;> simp [h]
    · intro hf hs
      unfold KafkaProducerManager.publish_message
      simp only [hf, hs, Bool.or_false, Bool.false_or, if_false]
      by_cases hq : st.message_queue.length < KafkaProducerManager.QUEUE_MAX_SIZE
      · simp [hq]
      · simp [hq]
  · intro fmtDT st a
    unfold SpiderTaskQue.mine_article_transport
    cases hp : (KafkaProducerManager.publish_message st a.id
        (SpiderTaskQue.kafkaNormalize fmtDT a)).1 <;>
      simp [hp, MineRoute.isDelta]

/-- Witness for C8: with a fresh manager (no fallback, no shutdown, empty
queue) a publish succeeds exactly because the queue is below capacity. -/
theorem publish_message_gate_witness :
    ((KafkaProducerManager.publish_message ⟨false, false, []⟩ "k" []).1 = true) ↔
      (⟨false, false, []⟩ : KafkaManagerState).message_queue.length <
        KafkaProducerManager.QUEUE_MAX_SIZE :=
  ((publish_message_gate_and_fallback_routing.1 ⟨false, false, []⟩ "k" []).2
    rfl rfl).1

/-- C6: the extraction job's transport record carries the stringified id
and the source's name, formats a non-null publication_date with the
strftime parameter, and maps empty collections and nulls to "NULL" and
non-empty collections to a " ,"-joined string — but the Article dataclass
itself declares no id field although ArticleSpider passes one, so in
Python the construction of the record raises TypeError before any record
is prepared. -/
theorem article_transport_normalization_and_id_field :
    ("id" ∈ ArticleSpider_scrape_data_kwargs ∧ "id" ∉ Article_dataclass_fields) ∧
    (∀ (fmtDT : Int → String) (a : SpiderArticleRecord),
      (SpiderTaskQue.kafkaNormalize fmtDT a).lookup "id" = some a.id ∧
      (SpiderTaskQue.kafkaNormalize fmtDT a).lookup "source" = some a.source.name ∧
      (∀ d, a.publication_date = some d →
        (SpiderTaskQue.kafkaNormalize fmtDT a).lookup "publication_date" =
          some (fmtDT d)) ∧
      (a.publication_date = none →
        (SpiderTaskQue.kafkaNormalize fmtDT a).lookup "publication_date" =
          some "NULL") ∧
      (a.author = [] →
        (SpiderTaskQue.kafkaNormalize fmtDT a).lookup "author" = some "NULL") ∧
      (a.author ≠ [] →
        (SpiderTaskQue.kafkaNormalize fmtDT a).lookup "author" =
          some (joinSpaceComma a.author)) ∧
      (a.tags = [] →
        (SpiderTaskQue.kafkaNormalize fmtDT a).lookup "tags" = some "NULL") ∧
      (a.tags ≠ [] →
        (SpiderTaskQue.kafkaNormalize fmtDT a).lookup "tags" =
          some (joinSpaceComma a.tags)) ∧
      (a.categories = [] →
        (SpiderTaskQue.kafkaNormalize fmtDT a).lookup "categories" = some "NULL") ∧
      (a.categories ≠ [] →
        (SpiderTaskQue.kafkaNormalize fmtDT a).lookup "categories" =
          some (joinSpaceComma a.categories)) ∧
      (a.images = [] →
        (SpiderTaskQue.kafkaNormalize fmtDT a).lookup "images" = some "NULL") ∧
      (a.images ≠ [] →
        (SpiderTaskQue.kafkaNormalize fmtDT a).lookup "images" =
          some (joinSpaceComma a.images))) := by
  constructor
  · exact ⟨by decide, by decide⟩
  · intro fmtDT a
    refine ⟨?_, ?_, ?_, ?_, ?_, ?_, ?_, ?_, ?_, ?_, ?_, ?_⟩ <;>
      first
        | (intro d hd
           simp [SpiderTaskQue.kafkaNormalize, List.lookup, hd,
             SpiderTaskQue.normalizeCollection, List.isEmpty_iff])
        | (intro h
           simp [SpiderTaskQue.kafkaNormalize, List.lookup, h,
             SpiderTaskQue.normalizeCollection, List.isEmpty_iff])
        | simp [SpiderTaskQue.kafkaNormalize, List.lookup]

/-- Witness for C6 at a concrete record with a null publication date and
an empty tag list. -/
theorem article_transport_normalization_witness :
    (SpiderTaskQue.kafkaNormalize (fun _ => "") 
      ⟨"0a1b", "T", ["A", "B"], none, cexSource, "https://x.com/a", "s", "c",
        [], [], []⟩).lookup "publication_date" = some "NULL" :=
  ((article_transport_normalization_and_id_field.2 (fun _ => "")
    ⟨"0a1b", "T", ["A", "B"], none, cexSource, "https://x.com/a", "s", "c",
      [], [], []⟩).2.2.2.1) rfl

/-- C2: the domain-host comparison exists only in
ArticleScraper.fetch_article (the xpath scraper the live path does not
use), where a mismatch raises InvalidDomainInArticleUrlException; the live
extraction path (ArticleSpider.extract_data feeding __mine_article) never
consults the source's domain, so its outcome is identical whatever domain
the source carries — in particular for canonical_domain "x.com" and
article URL "https://y.com/a", whose netloc "y.com" differs. -/
theorem domain_check_only_in_unused_scraper :
    (∀ (netloc : String → String) (domain url : String)
        (parsed : List (String × String)), netloc url ≠ domain →
      ArticleScraper.fetch_article netloc domain url parsed =
        .error .invalidDomainInArticleUrl) ∧
    (∀ (fmtDT : Int → String) (st : KafkaManagerState) (newId : String)
        (download : String → NewsArticle) (url : String) (src : ArticleSource)
        (d1 d2 : String),
      SpiderTaskQue.mine_article_transport fmtDT st
          (ArticleSpider.extract_data newId download url { src with domain := d1 }) =
        SpiderTaskQue.mine_article_transport fmtDT st
          (ArticleSpider.extract_data newId download url { src with domain := d2 })) ∧
    (urlNetloc "https://y.com/a" = "y.com" ∧ ("y.com" : String) ≠ "x.com") := by
  refine ⟨fun netloc domain url parsed h => ?_, fun _ _ _ _ _ _ _ _ => rfl,
    by decide, by decide⟩
  simp only [ArticleScraper.fetch_article, if_pos h]

/-- Witness for C2: the unused scraper rejects the mismatched URL. -/
theorem domain_check_only_in_unused_scraper_witness :
    ArticleScraper.fetch_article urlNetloc "x.com" "https://y.com/a" [] =
      .error .invalidDomainInArticleUrl :=
  domain_check_only_in_unused_scraper.1 urlNetloc "x.com" "https://y.com/a" []
    (by decide)

/-- Helper: one format iteration of the date parse equals trying that
format on the field chosen by presence. -/
theorem attemptParse_eq_chosen (parse : String → String → Option Int)
    (fmt : String) (feed : Feed) :
    FeedReader.attemptParseForFormat parse fmt feed =
      (match FeedReader.chosen_date_field feed with
       | .error e => .error e
       | .ok none => .ok none
       | .ok (some s) =>
         match parse fmt s with
         | some d => .ok (some d)
         | none => .error (.valueError "strptime")) := by
  obtain ⟨bozo, pub, upd, fupd, entries⟩ := feed
  unfold FeedReader.attemptParseForFormat FeedReader.chosen_date_field
  cases pub with
  | some s => rfl
  | none =>
  cases upd with
  | some s => rfl
  | none =>
  cases fupd with
  | some s => rfl
  | none =>
  cases entries with
  | nil => rfl
  | cons e0 es =>
  obtain ⟨l, t, su, epub, eupd, ser⟩ := e0
  cases epub with
  | some s => rfl
  | none =>
  cases eupd with
  | some s => rfl
  | none => rfl

/-- Helper: the chosen-field computation only raises IndexError. -/
theorem chosen_date_field_error_is_index (feed : Feed) (e : PyErr)
    (h : FeedReader.chosen_date_field feed = .error e) : e = PyErr.indexError := by
  obtain ⟨bozo, pub, upd, fupd, entries⟩ := feed
  unfold FeedReader.chosen_date_field at h
  cases pub with
  | some s => cases h
  | none =>
  cases upd with
  | some s => cases h
  | none =>
  cases fupd with
  | some s => cases h
  | none =>
  cases entries with
  | nil =>
    cases h
    rfl
  | cons e0 es =>
  obtain ⟨l, t, su, epub, eupd, ser⟩ := e0
  cases epub with
  | some s => cases h
  | none =>
  cases eupd with
  | some s => cases h
  | none => cases h

/-- C5 (amended): the date parse consults only the first present field
among feed.published, feed.updated, feed.feed.updated,
entries[0].published, entries[0].updated, tries the offset format and
then the name format on that one field, keeps the stored value when the
chosen field parses under neither format, and never falls back to a later
field. -/
theorem update_feed_update_time_eq_amended :
    ∀ (parse : String → String → Option Int) (feed : Feed) (current : Option Int),
    FeedReader.update_feed_update_time parse feed current =
      FeedReader.update_feed_update_time_amended parse feed current := by
  intro parse feed current
  unfold FeedReader.update_feed_update_time FeedReader.update_feed_update_time_amended
  rw [attemptParse_eq_chosen parse date_format_tz_offset feed,
    attemptParse_eq_chosen parse date_format_tz_name feed]
  cases hc : FeedReader.chosen_date_field feed with
  | error e =>
    have he := chosen_date_field_error_is_index feed e hc
    subst he
    rfl
  | ok v =>
    cases v with
    | none => rfl
    | some s =>
      cases h1 : parse date_format_tz_offset s with
      | some d => simp [h1, FeedReader.applyParsed]
      | none =>
        cases h2 : parse date_format_tz_name s with
        | some d => simp [h1, h2, FeedReader.applyParsed]
        | none => simp [h1, h2, FeedReader.applyParsed]

/-- C5 counterexample: a feed whose feed.published is present but
unparseable in both formats while feed.updated would parse: the code
leaves the stored update time unchanged instead of setting it from
feed.updated as the claim states. -/
theorem update_feed_update_time_counterexample :
    FeedReader.update_feed_update_time cexParseGoodOnly cexFeedPubBad none = .ok none ∧
    cexFeedPubBad.published = some "bad" ∧
    cexFeedPubBad.updated = some "good" ∧
    cexParseGoodOnly date_format_tz_offset "good" = some 5 ∧
    cexParseGoodOnly date_format_tz_name "good" = some 5 ∧
    cexParseGoodOnly date_format_tz_offset "bad" = none ∧
    cexParseGoodOnly date_format_tz_name "bad" = none ∧
    FeedReader.update_feed_update_time cexParseGoodOnly cexFeedPubBad none ≠
      .ok (some 5) := by
  refine ⟨rfl, rfl, rfl, rfl, rfl, rfl, rfl, ?_⟩
  intro h
  rw [show FeedReader.update_feed_update_time cexParseGoodOnly cexFeedPubBad none =
    .ok none from rfl] at h
  simp at h

/-- Helper: with at least one entry the chosen-field computation does not
raise. -/
theorem chosen_date_field_ok_of_cons (feed : Feed) (e0 : FeedEntry)
    (rest : List FeedEntry) (h : feed.entries = e0 :: rest) :
    ∃ v, FeedReader.chosen_date_field feed = .ok v := by
  obtain ⟨bozo, pub, upd, fupd, entries⟩ := feed
  replace h : entries = e0 :: rest := h
  subst h
  unfold FeedReader.chosen_date_field
  cases pub with
  | some s => exact ⟨_, rfl⟩
  | none =>
  cases upd with
  | some s => exact ⟨_, rfl⟩
  | none =>
  cases fupd with
  | some s => exact ⟨_, rfl⟩
  | none =>
  obtain ⟨l, t, su, epub, eupd, ser⟩ := e0
  cases epub with
  | some s => exact ⟨_, rfl⟩
  | none =>
  cases eupd with
  | some s => exact ⟨_, rfl⟩
  | none => exact ⟨_, rfl⟩

/-- Helper: with at least one entry the date-time update never raises. -/
theorem update_feed_ok_of_cons (parse : String → String → Option Int)
    (feed : Feed) (current : Option Int) (e0 : FeedEntry)
    (rest : List FeedEntry) (h : feed.entries = e0 :: rest) :
    ∃ v, FeedReader.update_feed_update_time parse feed current = .ok v := by
  unfold FeedReader.update_feed_update_time
  rw [attemptParse_eq_chosen parse date_format_tz_offset feed,
    attemptParse_eq_chosen parse date_format_tz_name feed]
  obtain ⟨v, hv⟩ := chosen_date_field_ok_of_cons feed e0 rest h
  rw [hv]
  cases v with
  | none => exact ⟨_, rfl⟩
  | some s =>
    cases h1 : parse date_format_tz_offset s with
    | some d => simp [h1]
    | none =>
      cases h2 : parse date_format_tz_name s with
      | some d => simp [h1, h2]
      | none => simp [h1, h2]

/-- Helper: finishFetch passes the request list through and leaves the
novelty flag, the stored hash, the socket flag, the interval and the
source untouched. -/
theorem finishFetch_invariants (parse : String → String → Option Int)
    (now : Int) (feed : Feed) (reqs : List CacheRequest) (st : FeedReaderState) :
    (FeedReader.finishFetch parse now feed reqs st).requests = reqs ∧
    (FeedReader.finishFetch parse now feed reqs st).state.has_updated_since_last_request =
      st.has_updated_since_last_request ∧
    (FeedReader.finishFetch parse now feed reqs st).state.last_feed_item_hash =
      st.last_feed_item_hash ∧
    (FeedReader.finishFetch parse now feed reqs st).state.socket_set = st.socket_set := by
  unfold FeedReader.finishFetch
  cases h : FeedReader.update_feed_update_time parse feed st.feed_last_updated_on with
  | ok upd => exact ⟨rfl, rfl, rfl, rfl⟩
  | error e => exact ⟨rfl, rfl, rfl, rfl⟩

/-- Helper: with at least one entry finishFetch completes without an
exception. -/
theorem finishFetch_error_none_of_cons (parse : String → String → Option Int)
    (now : Int) (feed : Feed) (reqs : List CacheRequest) (st : FeedReaderState)
    (e0 : FeedEntry) (rest : List FeedEntry) (h : feed.entries = e0 :: rest) :
    (FeedReader.finishFetch parse now feed reqs st).error = none := by
  unfold FeedReader.finishFetch
  obtain ⟨v, hv⟩ :=
    update_feed_ok_of_cons parse feed st.feed_last_updated_on e0 rest h
  rw [hv]

/-- Helper: the closed form of fetch_feed when the socket is set, the
feed parsed and at least one entry is present. -/
theorem fetch_feed_ready_eq (hashEntry : FeedEntry → Int)
    (parse : String → String → Option Int) (now : Int) (nowIso : String)
    (feed : Feed) (gr sr : CacheJsonReply) (st : FeedReaderState)
    (e0 : FeedEntry) (rest : List FeedEntry)
    (hs : st.socket_set = true) (hb : feed.bozo = false)
    (hent : feed.entries = e0 :: rest) :
    FeedReader.fetch_feed hashEntry parse now nowIso feed gr sr st =
      (if st.last_feed_item_hash ≠ hashEntry e0 ∧ gr.isDict = true ∧
          gr.value = some "NA" then
        (if sr.isDict = true ∧ sr.status ≠ some "success" then
          ⟨{ st with has_updated_since_last_request := true,
                     last_feed_item_hash := hashEntry e0 },
           [.get (hashEntry e0), .set (hashEntry e0) nowIso],
           some (.valueError "Cache set failed")⟩
        else
          FeedReader.finishFetch parse now feed
            [.get (hashEntry e0), .set (hashEntry e0) nowIso]
            { st with has_updated_since_last_request := true,
                      last_feed_item_hash := hashEntry e0 })
      else FeedReader.finishFetch parse now feed [.get (hashEntry e0)] st) := by
  unfold FeedReader.fetch_feed
  rw [hs, hb, hent]
  rfl

/-- Helper: fetch_feed never clears an already-set novelty flag. -/
theorem fetch_feed_flag_monotone_aux (hashEntry : FeedEntry → Int)
    (parse : String → String → Option Int) (now : Int) (nowIso : String)
    (feed : Feed) (gr sr : CacheJsonReply) (st : FeedReaderState)
    (h : st.has_updated_since_last_request = true) :
    (FeedReader.fetch_feed hashEntry parse now nowIso feed gr sr
      st).state.has_updated_since_last_request = true := by
  unfold FeedReader.fetch_feed
  cases hsock : st.socket_set with
  | false => simpa using h
  | true =>
    simp only [Bool.true_eq_false, if_false]
    cases hbozo : feed.bozo with
    | true => simpa using h
    | false =>
      simp only [Bool.false_eq_true, if_false]
      cases hent : feed.entries with
      | nil => simpa using h
      | cons e0 tail =>
        simp only []
        split_ifs with h1 h2
        · rfl
        · exact (finishFetch_invariants parse now feed _ _).2.1
        · exact ((finishFetch_invariants parse now feed _ _).2.1).trans h

/-- Helper: a fetch whose stored fingerprint already equals the feed's
first-entry fingerprint issues no set request and keeps that fingerprint
(also through the early-exit error paths). -/
theorem fetch_feed_no_set_of_hash_eq (hashEntry : FeedEntry → Int)
    (parse : String → String → Option Int) (now : Int) (nowIso : String)
    (feed : Feed) (gr sr : CacheJsonReply) (st : FeedReaderState)
    (F : Int) (e0 : FeedEntry) (rest : List FeedEntry)
    (hent : feed.entries = e0 :: rest) (hF : hashEntry e0 = F)
    (hlast : st.last_feed_item_hash = F) :
    ((FeedReader.fetch_feed hashEntry parse now nowIso feed gr sr
        st).requests.any CacheRequest.isSet) = false ∧
    (FeedReader.fetch_feed hashEntry parse now nowIso feed gr sr
      st).state.last_feed_item_hash = F := by
  cases hsock : st.socket_set with
  | false =>
    unfold FeedReader.fetch_feed
    simp [hsock, hlast]
  | true =>
    cases hbozo : feed.bozo with
    | true =>
      unfold FeedReader.fetch_feed
      simp [hsock, hbozo, hlast]
    | false =>
      rw [fetch_feed_ready_eq hashEntry parse now nowIso feed gr sr st e0 rest
        hsock hbozo hent]
      have hnov : ¬(st.last_feed_item_hash ≠ hashEntry e0 ∧ gr.isDict = true ∧
          gr.value = some "NA") := by
        rw [hlast, hF]
        simp
      rw [if_neg hnov]
      constructor
      · rw [(finishFetch_invariants parse now feed _ _).1]
        simp [CacheRequest.isSet]
      · rw [(finishFetch_invariants parse now feed _ _).2.2.1, hlast]

/-- Helper: a fetch that issued a set request stored the feed's
first-entry fingerprint. -/
theorem fetch_feed_set_state_hash (hashEntry : FeedEntry → Int)
    (parse : String → String → Option Int) (now : Int) (nowIso : String)
    (feed : Feed) (gr sr : CacheJsonReply) (st : FeedReaderState)
    (e0 : FeedEntry) (rest : List FeedEntry) (hent : feed.entries = e0 :: rest)
    (hset : (FeedReader.fetch_feed hashEntry parse now nowIso feed gr sr
        st).requests.any CacheRequest.isSet = true) :
    (FeedReader.fetch_feed hashEntry parse now nowIso feed gr sr
      st).state.last_feed_item_hash = hashEntry e0 := by
  cases hsock : st.socket_set with
  | false =>
    unfold FeedReader.fetch_feed at hset
    simp [hsock] at hset
  | true =>
    cases hbozo : feed.bozo with
    | true =>
      unfold FeedReader.fetch_feed at hset
      simp [hsock, hbozo] at hset
    | false =>
      rw [fetch_feed_ready_eq hashEntry parse now nowIso feed gr sr st e0 rest
        hsock hbozo hent] at hset ⊢
      by_cases hnov : (st.last_feed_item_hash ≠ hashEntry e0 ∧ gr.isDict = true ∧
          gr.value = some "NA")
      · rw [if_pos hnov] at hset ⊢
        by_cases hsr : (sr.isDict = true ∧ sr.status ≠ some "success")
        · rw [if_pos hsr]
        · rw [if_neg hsr]
          exact (finishFetch_invariants parse now feed _ _).2.2.1
      · rw [if_neg hnov] at hset
        rw [(finishFetch_invariants parse now feed _ _).1] at hset
        simp [CacheRequest.isSet] at hset

/-- Helper: once the stored fingerprint equals F, a run of fetches over
feeds whose first entry hashes to F issues no set request at all. -/
theorem fetch_runs_no_set_of_hash_eq (hashEntry : FeedEntry → Int)
    (parse : String → String → Option Int) (F : Int) :
    ∀ (inputs : List FetchInput) (st : FeedReaderState),
    st.last_feed_item_hash = F →
    (∀ i ∈ inputs, ∃ e0 rest, i.feed.entries = e0 :: rest ∧ hashEntry e0 = F) →
    (FeedReader.fetch_feed_runs hashEntry parse st inputs).countP
      (fun o => o.requests.any CacheRequest.isSet) = 0 := by
  intro inputs
  induction inputs with
  | nil => intro st hlast hin; rfl
  | cons i is ih =>
    intro st hlast hin
    obtain ⟨e0, rest, hent, hF⟩ := hin i (List.mem_cons_self i is)
    have hns := fetch_feed_no_set_of_hash_eq hashEntry parse i.now i.nowIso
      i.feed i.getReply i.setReply st F e0 rest hent hF hlast
    have htail := ih (FeedReader.fetch_feed hashEntry parse i.now i.nowIso
        i.feed i.getReply i.setReply st).state hns.2
      (fun j hj => hin j (List.mem_cons_of_mem i hj))
    simp only [FeedReader.fetch_feed_runs, List.countP_cons]
    simp [htail, hns.1]

/-- Helper: across any run of fetches over feeds whose first entry hashes
to F, at most one call issues a set request. -/
theorem fetch_runs_at_most_one_set (hashEntry : FeedEntry → Int)
    (parse : String → String → Option Int) (F : Int) :
    ∀ (inputs : List FetchInput) (st : FeedReaderState),
    (∀ i ∈ inputs, ∃ e0 rest, i.feed.entries = e0 :: rest ∧ hashEntry e0 = F) →
    (FeedReader.fetch_feed_runs hashEntry parse st inputs).countP
      (fun o => o.requests.any CacheRequest.isSet) ≤ 1 := by
  intro inputs
  induction inputs with
  | nil => intro st hin; simp [FeedReader.fetch_feed_runs]
  | cons i is ih =>
    intro st hin
    obtain ⟨e0, rest, hent, hF⟩ := hin i (List.mem_cons_self i is)
    simp only [FeedReader.fetch_feed_runs, List.countP_cons]
    by_cases hset : (FeedReader.fetch_feed hashEntry parse i.now i.nowIso
        i.feed i.getReply i.setReply st).requests.any CacheRequest.isSet = true
    · have hhash := fetch_feed_set_state_hash hashEntry parse i.now i.nowIso
        i.feed i.getReply i.setReply st e0 rest hent hset
      have h0 := fetch_runs_no_set_of_hash_eq hashEntry parse F is
        (FeedReader.fetch_feed hashEntry parse i.now i.nowIso i.feed
          i.getReply i.setReply st).state (hhash.trans hF)
        (fun j hj => hin j (List.mem_cons_of_mem i hj))
      simp [hset, h0]
    · have htail := ih (FeedReader.fetch_feed hashEntry parse i.now i.nowIso
        i.feed i.getReply i.setReply st).state
        (fun j hj => hin j (List.mem_cons_of_mem i hj))
      rw [if_neg hset]
      omega

/-- C1: on a fetch with the socket set, a well-formed feed and first-entry
fingerprint F = hashEntry e0: exactly when the get reply is a dict whose
value is "NA" and F differs from the stored fingerprint, the call sets
the novelty flag, stores F and sends the get followed by one set(F, now)
— completing without error iff the set reply is not a dict whose status
differs from "success"; otherwise the call completes without error,
leaves flag and fingerprint unchanged and sends only the get. And across
any sequence of fetches observing the same fingerprint F, at most one
call issues a set (sets the novelty flag). -/
theorem fetch_feed_novelty_exactly_once :
    (∀ (hashEntry : FeedEntry → Int) (parse : String → String → Option Int)
        (now : Int) (nowIso : String) (feed : Feed) (gr sr : CacheJsonReply)
        (st : FeedReaderState) (e0 : FeedEntry) (rest : List FeedEntry),
      st.socket_set = true → feed.bozo = false → feed.entries = e0 :: rest →
      ((st.last_feed_item_hash ≠ hashEntry e0 ∧ gr.isDict = true ∧
          gr.value = some "NA") →
        (FeedReader.fetch_feed hashEntry parse now nowIso feed gr sr
            st).state.has_updated_since_last_request = true ∧
        (FeedReader.fetch_feed hashEntry parse now nowIso feed gr sr
          st).state.last_feed_item_hash = hashEntry e0 ∧
        (FeedReader.fetch_feed hashEntry parse now nowIso feed gr sr
          st).requests =
            [.get (hashEntry e0), .set (hashEntry e0) nowIso] ∧
        ((FeedReader.fetch_feed hashEntry parse now nowIso feed gr sr
            st).error = none ↔
          ¬(sr.isDict = true ∧ sr.status ≠ some "success"))) ∧
      (¬(st.last_feed_item_hash ≠ hashEntry e0 ∧ gr.isDict = true ∧
          gr.value = some "NA") →
        (FeedReader.fetch_feed hashEntry parse now nowIso feed gr sr
          st).error = none ∧
        (FeedReader.fetch_feed hashEntry parse now nowIso feed gr sr
            st).state.has_updated_since_last_request =
          st.has_updated_since_last_request ∧
        (FeedReader.fetch_feed hashEntry parse now nowIso feed gr sr
            st).state.last_feed_item_hash = st.last_feed_item_hash ∧
        (FeedReader.fetch_feed hashEntry parse now nowIso feed gr sr
          st).requests = [.get (hashEntry e0)])) ∧
    (∀ (hashEntry : FeedEntry → Int) (parse : String → String → Option Int)
        (st : FeedReaderState) (F : Int) (inputs : List FetchInput),
      (∀ i ∈ inputs, ∃ e0 rest, i.feed.entries = e0 :: rest ∧ hashEntry e0 = F) →
      (FeedReader.fetch_feed_runs hashEntry parse st inputs).countP
        (fun o => o.requests.any CacheRequest.isSet) ≤ 1) := by
  constructor
  · intro hashEntry parse now nowIso feed gr sr st e0 rest hs hb hent
    rw [fetch_feed_ready_eq hashEntry parse now nowIso feed gr sr st e0 rest
      hs hb hent]
    constructor
    · intro hnov
      rw [if_pos hnov]
      by_cases hsr : (sr.isDict = true ∧ sr.status ≠ some "success")
      · rw [if_pos hsr]
        refine ⟨rfl, rfl, rfl, ?_⟩
        simp [hsr]
      · rw [if_neg hsr]
        refine ⟨(finishFetch_invariants parse now feed _ _).2.1,
          (finishFetch_invariants parse now feed _ _).2.2.1, 
          (finishFetch_invariants parse now feed _ _).1, ?_⟩
        simp [finishFetch_error_none_of_cons parse now feed _ _ e0 rest hent, hsr]
    · intro hnov
      rw [if_neg hnov]
      exact ⟨finishFetch_error_none_of_cons parse now feed _ st e0 rest hent,
        (finishFetch_invariants parse now feed _ st).2.1,
        (finishFetch_invariants parse now feed _ st).2.2.1,
        (finishFetch_invariants parse now feed _ st).1⟩
  · exact fun hashEntry parse st F inputs hin =>
      fetch_runs_at_most_one_set hashEntry parse F inputs st hin

/-- Witness for C1 at a fresh reader seeing fingerprint 1 with an "NA"
get reply and a successful set reply. -/
theorem fetch_feed_novelty_witness :
    (FeedReader.fetch_feed cexHashEntry cexParseNone 100 "t1" cexFeed replyNA
        replySetOk cexState).state.has_updated_since_last_request = true ∧
    (FeedReader.fetch_feed cexHashEntry cexParseNone 100 "t1" cexFeed replyNA
      replySetOk cexState).state.last_feed_item_hash = cexHashEntry cexEntry ∧
    (FeedReader.fetch_feed cexHashEntry cexParseNone 100 "t1" cexFeed replyNA
      replySetOk cexState).requests =
        [.get (cexHashEntry cexEntry), .set (cexHashEntry cexEntry) "t1"] ∧
    ((FeedReader.fetch_feed cexHashEntry cexParseNone 100 "t1" cexFeed replyNA
        replySetOk cexState).error = none ↔
      ¬(replySetOk.isDict = true ∧ replySetOk.status ≠ some "success")) :=
  (fetch_feed_novelty_exactly_once.1 cexHashEntry cexParseNone 100 "t1" cexFeed
      replyNA replySetOk cexState cexEntry [] rfl rfl rfl).1 (by decide)

/-- Helper: when the refresh condition holds, get_feed is the composition
of fetch_feed with the snapshot-and-clear step. -/
theorem get_feed_eq_fetch (hashEntry : FeedEntry → Int)
    (parse : String → String → Option Int) (now : Int) (nowIso : String)
    (feed : Feed) (gr sr : CacheJsonReply) (st : FeedReaderState)
    (h : FeedReader.needsRefresh now st = true) :
    FeedReader.get_feed hashEntry parse now nowIso feed gr sr st =
      (match (FeedReader.fetch_feed hashEntry parse now nowIso feed gr sr
          st).error with
       | some e =>
         ⟨none,
          (FeedReader.fetch_feed hashEntry parse now nowIso feed gr sr st).state,
          (FeedReader.fetch_feed hashEntry parse now nowIso feed gr sr st).requests,
          some e⟩
       | none =>
         ⟨some ⟨(FeedReader.fetch_feed hashEntry parse now nowIso feed gr sr
             st).state.source,
           (FeedReader.fetch_feed hashEntry parse now nowIso feed gr sr
             st).state.feed_last_updated_on,
           (FeedReader.fetch_feed hashEntry parse now nowIso feed gr sr
             st).state.feed_last_refresh_on,
           (FeedReader.fetch_feed hashEntry parse now nowIso feed gr sr
             st).state.feed,
           (FeedReader.fetch_feed hashEntry parse now nowIso feed gr sr
             st).state.has_updated_since_last_request⟩,
          { (FeedReader.fetch_feed hashEntry parse now nowIso feed gr sr
              st).state with has_updated_since_last_request := false },
          (FeedReader.fetch_feed hashEntry parse now nowIso feed gr sr st).requests,
          none⟩) := by
  unfold FeedReader.get_feed
  rw [h]
  rfl

/-- Helper: when the refresh condition fails, get_feed returns the stored
snapshot, clears the flag and sends nothing. -/
theorem get_feed_eq_no_fetch (hashEntry : FeedEntry → Int)
    (parse : String → String → Option Int) (now : Int) (nowIso : String)
    (feed : Feed) (gr sr : CacheJsonReply) (st : FeedReaderState)
    (h : FeedReader.needsRefresh now st = false) :
    FeedReader.get_feed hashEntry parse now nowIso feed gr sr st =
      ⟨some ⟨st.source, st.feed_last_updated_on, st.feed_last_refresh_on,
        st.feed, st.has_updated_since_last_request⟩,
       { st with has_updated_since_last_request := false }, [], none⟩ := by
  unfold FeedReader.get_feed
  rw [h]
  rfl

/-- C3: get_feed invokes fetch_feed exactly when the stored last-refresh
time is null or strictly older than now minus min_refresh_interval; on a
successful call it returns the snapshot carrying the pre-clear novelty
flag and leaves the flag cleared, and fetch_feed itself never clears the
flag, so a true flag is cleared by exactly this read. -/
theorem get_feed_refresh_snapshot_clear :
    (∀ (now : Int) (st : FeedReaderState),
      FeedReader.needsRefresh now st = true ↔
        (st.feed_last_refresh_on = none ∨
          ∃ r, st.feed_last_refresh_on = some r ∧
            r < now - st.min_refresh_interval)) ∧
    (∀ (hashEntry : FeedEntry → Int) (parse : String → String → Option Int)
        (now : Int) (nowIso : String) (feed : Feed) (gr sr : CacheJsonReply)
        (st : FeedReaderState),
      (FeedReader.needsRefresh now st = true →
        FeedReader.get_feed hashEntry parse now nowIso feed gr sr st =
          (match (FeedReader.fetch_feed hashEntry parse now nowIso feed gr sr
              st).error with
           | some e =>
             ⟨none,
              (FeedReader.fetch_feed hashEntry parse now nowIso feed gr sr
                st).state,
              (FeedReader.fetch_feed hashEntry parse now nowIso feed gr sr
                st).requests,
              some e⟩
           | none =>
             ⟨some ⟨(FeedReader.fetch_feed hashEntry parse now nowIso feed gr sr
                 st).state.source,
               (FeedReader.fetch_feed hashEntry parse now nowIso feed gr sr
                 st).state.feed_last_updated_on,
               (FeedReader.fetch_feed hashEntry parse now nowIso feed gr sr
                 st).state.feed_last_refresh_on,
               (FeedReader.fetch_feed hashEntry parse now nowIso feed gr sr
                 st).state.feed,
               (FeedReader.fetch_feed hashEntry parse now nowIso feed gr sr
                 st).state.has_updated_since_last_request⟩,
              { (FeedReader.fetch_feed hashEntry parse now nowIso feed gr sr
                  st).state with has_updated_since_last_request := false },
              (FeedReader.fetch_feed hashEntry parse now nowIso feed gr sr
                st).requests,
              none⟩)) ∧
      (FeedReader.needsRefresh now st = false →
        FeedReader.get_feed hashEntry parse now nowIso feed gr sr st =
          ⟨some ⟨st.source, st.feed_last_updated_on, st.feed_last_refresh_on,
            st.feed, st.has_updated_since_last_request⟩,
           { st with has_updated_since_last_request := false }, [], none⟩) ∧
      ((FeedReader.get_feed hashEntry parse now nowIso feed gr sr st).error =
          none →
        (FeedReader.get_feed hashEntry parse now nowIso feed gr sr
          st).state.has_updated_since_last_request = false ∧
        ∃ d, (FeedReader.get_feed hashEntry parse now nowIso feed gr sr
            st).data = some d ∧
          d.has_updated_since_last_request =
            (if FeedReader.needsRefresh now st then
              (FeedReader.fetch_feed hashEntry parse now nowIso feed gr sr
                st).state.has_updated_since_last_request
             else st.has_updated_since_last_request))) ∧
    (∀ (hashEntry : FeedEntry → Int) (parse : String → String → Option Int)
        (now : Int) (nowIso : String) (feed : Feed) (gr sr : CacheJsonReply)
        (st : FeedReaderState),
      st.has_updated_since_last_request = true →
      (FeedReader.fetch_feed hashEntry parse now nowIso feed gr sr
        st).state.has_updated_since_last_request = true) := by
  refine ⟨?_, ?_, ?_⟩
  · intro now st
    unfold FeedReader.needsRefresh
    cases h : st.feed_last_refresh_on with
    | none => simp
    | some r => simp
  · intro hashEntry parse now nowIso feed gr sr st
    refine ⟨get_feed_eq_fetch hashEntry parse now nowIso feed gr sr st,
      get_feed_eq_no_fetch hashEntry parse now nowIso feed gr sr st, ?_⟩
    intro herr
    cases hnr : FeedReader.needsRefresh now st with
    | true =>
      rw [get_feed_eq_fetch hashEntry parse now nowIso feed gr sr st hnr]
        at herr ⊢
      cases he : (FeedReader.fetch_feed hashEntry parse now nowIso feed gr sr
          st).error with
      | some e =>
        rw [he] at herr
        simp at herr
      | none => exact ⟨rfl, _, rfl, rfl⟩
    | false =>
      rw [get_feed_eq_no_fetch hashEntry parse now nowIso feed gr sr st hnr]
      exact ⟨rfl, _, rfl, rfl⟩
  · exact fun hashEntry parse now nowIso feed gr sr st h =>
      fetch_feed_flag_monotone_aux hashEntry parse now nowIso feed gr sr st h

/-- Witness for C3: a reader refreshed 5 seconds ago with a 10 second
minimum interval is served from the stored snapshot without a fetch. -/
theorem get_feed_refresh_witness :
    FeedReader.get_feed cexHashEntry cexParseNone 100 "t" cexFeed replyNA
        replySetOk { cexState with feed_last_refresh_on := some 95 } =
      ⟨some ⟨{ cexState with feed_last_refresh_on := some 95 }.source,
        { cexState with feed_last_refresh_on := some 95 }.feed_last_updated_on,
        { cexState with feed_last_refresh_on := some 95 }.feed_last_refresh_on,
        { cexState with feed_last_refresh_on := some 95 }.feed,
        { cexState with feed_last_refresh_on := some 95
          }.has_updated_since_last_request⟩,
       { { cexState with feed_last_refresh_on := some 95 } with
         has_updated_since_last_request := false }, [], none⟩ :=
  (get_feed_refresh_snapshot_clear.2.1 cexHashEntry cexParseNone 100 "t" cexFeed
    replyNA replySetOk { cexState with feed_last_refresh_on := some 95 }).2.1
    (by decide)

/-- C9 counterexample: two fetches of identical upstream bytes are NOT
cache-idempotent regardless of the second get reply — when the first
call's get reply is a hit (value not "NA", so the fingerprint stays
stale) and the second call's get reply is "NA", the second call issues a
set request and changes the stored fingerprint. -/
theorem fetch_feed_twice_counterexample :
    (FeedReader.fetch_feed cexHashEntry cexParseNone 100 "t1" cexFeed replyHit
      replySetOk cexState).error = none ∧
    ((FeedReader.fetch_feed cexHashEntry cexParseNone 200 "t2" cexFeed replyNA
        replySetOk
        (FeedReader.fetch_feed cexHashEntry cexParseNone 100 "t1" cexFeed
          replyHit replySetOk cexState).state).requests.any
      CacheRequest.isSet) = true ∧
    (FeedReader.fetch_feed cexHashEntry cexParseNone 200 "t2" cexFeed replyNA
        replySetOk
        (FeedReader.fetch_feed cexHashEntry cexParseNone 100 "t1" cexFeed
          replyHit replySetOk cexState).state).state.last_feed_item_hash ≠
      (FeedReader.fetch_feed cexHashEntry cexParseNone 100 "t1" cexFeed
        replyHit replySetOk cexState).state.last_feed_item_hash := by
  refine ⟨rfl, rfl, ?_⟩
  intro h
  simp only [show (FeedReader.fetch_feed cexHashEntry cexParseNone 200 "t2"
      cexFeed replyNA replySetOk
      (FeedReader.fetch_feed cexHashEntry cexParseNone 100 "t1" cexFeed
        replyHit replySetOk cexState).state).state.last_feed_item_hash =
    (1 : Int) from rfl,
    show (FeedReader.fetch_feed cexHashEntry cexParseNone 100 "t1" cexFeed
      replyHit replySetOk cexState).state.last_feed_item_hash = (0 : Int)
    from rfl] at h
  exact absurd h (by decide)

/-- C9 (amended): fetching identical upstream bytes twice issues no
additional cache set on the second call, provided the first call's get
reply was a dict with value "NA" (latching the fingerprint) or the
fingerprint was already stored; then the stored fingerprint also stays
unchanged, whatever the second call's replies are. -/
theorem fetch_feed_twice_idempotent_amended :
    ∀ (hashEntry : FeedEntry → Int) (parse : String → String → Option Int)
      (now1 : Int) (iso1 : String) (now2 : Int) (iso2 : String) (feed : Feed)
      (gr1 sr1 gr2 sr2 : CacheJsonReply) (st : FeedReaderState)
      (e0 : FeedEntry) (rest : List FeedEntry),
    feed.entries = e0 :: rest → st.socket_set = true → feed.bozo = false →
    ((gr1.isDict = true ∧ gr1.value = some "NA") ∨
      st.last_feed_item_hash = hashEntry e0) →
    ((FeedReader.fetch_feed hashEntry parse now2 iso2 feed gr2 sr2
        (FeedReader.fetch_feed hashEntry parse now1 iso1 feed gr1 sr1
          st).state).requests.any CacheRequest.isSet) = false ∧
    (FeedReader.fetch_feed hashEntry parse now2 iso2 feed gr2 sr2
        (FeedReader.fetch_feed hashEntry parse now1 iso1 feed gr1 sr1
          st).state).state.last_feed_item_hash =
      (FeedReader.fetch_feed hashEntry parse now1 iso1 feed gr1 sr1
        st).state.last_feed_item_hash := by
  intro hashEntry parse now1 iso1 now2 iso2 feed gr1 sr1 gr2 sr2 st e0 rest
    hent hs hb hdisj
  have h1 : (FeedReader.fetch_feed hashEntry parse now1 iso1 feed gr1 sr1
      st).state.last_feed_item_hash = hashEntry e0 := by
    rw [fetch_feed_ready_eq hashEntry parse now1 iso1 feed gr1 sr1 st e0 rest
      hs hb hent]
    by_cases hnov : (st.last_feed_item_hash ≠ hashEntry e0 ∧ gr1.isDict = true ∧
        gr1.value = some "NA")
    · rw [if_pos hnov]
      by_cases hsr : (sr1.isDict = true ∧ sr1.status ≠ some "success")
      · rw [if_pos hsr]
      · rw [if_neg hsr]
        exact (finishFetch_invariants parse now1 feed _ _).2.2.1
    · rw [if_neg hnov]
      rw [(finishFetch_invariants parse now1 feed _ st).2.2.1]
      rcases hdisj with hna | heq
      · by_cases heq2 : st.last_feed_item_hash = hashEntry e0
        · exact heq2
        · exact absurd ⟨heq2, hna.1, hna.2⟩ hnov
      · exact heq
  have hns := fetch_feed_no_set_of_hash_eq hashEntry parse now2 iso2 feed gr2
    sr2 (FeedReader.fetch_feed hashEntry parse now1 iso1 feed gr1 sr1 st).state
    (hashEntry e0) e0 rest hent rfl h1
  exact ⟨hns.1, hns.2.trans h1.symm⟩

/-- Witness for the amended C9: with an "NA" first reply, the second
fetch of the identical feed issues no set and keeps the fingerprint. -/
theorem fetch_feed_twice_idempotent_witness :
    ((FeedReader.fetch_feed cexHashEntry cexParseNone 200 "t2" cexFeed replyNA
        replySetOk
        (FeedReader.fetch_feed cexHashEntry cexParseNone 100 "t1" cexFeed
          replyNA replySetOk cexState).state).requests.any
      CacheRequest.isSet) = false ∧
    (FeedReader.fetch_feed cexHashEntry cexParseNone 200 "t2" cexFeed replyNA
        replySetOk
        (FeedReader.fetch_feed cexHashEntry cexParseNone 100 "t1" cexFeed
          replyNA replySetOk cexState).state).state.last_feed_item_hash =
      (FeedReader.fetch_feed cexHashEntry cexParseNone 100 "t1" cexFeed replyNA
        replySetOk cexState).state.last_feed_item_hash :=
  fetch_feed_twice_idempotent_amended cexHashEntry cexParseNone 100 "t1" 200
    "t2" cexFeed replyNA replySetOk replyNA replySetOk cexState cexEntry []
    rfl rfl rfl (Or.inl (by decide))

/-- Helper: removing the first endpoint-matching socket shortens the idle
list by exactly one. -/
theorem extractFirstForEndpoint_length (ep : String) (m : List (Nat × String)) :
    ∀ (l : List Nat) (s : Nat) (rest : List Nat),
    ZMQSocketPool.extractFirstForEndpoint ep m l = some (s, rest) →
    rest.length + 1 = l.length := by
  intro l
  induction l with
  | nil => intro s rest h; cases h
  | cons x xs ih =>
    intro s rest h
    unfold ZMQSocketPool.extractFirstForEndpoint at h
    by_cases hc : ZMQSocketPool.lookupEndpoint m x = some ep
    · rw [if_pos hc] at h
      cases h
      rfl
    · rw [if_neg hc] at h
      cases he : ZMQSocketPool.extractFirstForEndpoint ep m xs with
      | none => rw [he] at h; cases h
      | some p =>
        obtain ⟨t, rest'⟩ := p
        rw [he] at h
        injection h with h'
        rw [Prod.mk.injEq] at h'
        obtain ⟨h1, h2⟩ := h'
        rw [← h2]
        have := ih t rest' he
        simp only [List.length_cons]
        omega

/-- Helper: the strengthened reachability invariant — the in-use counter
plus the idle-list length stays within max_pool_size, and the in-use
counter plus the remaining semaphore permits stays within
max_concurrent_users. -/
theorem pool_reachable_invariant (cfg : ZMQSocketPoolConfig)
    (st : ZMQSocketPoolState) (h : ZMQSocketPool.Reachable cfg st) :
    st.in_use_count + st.available_sockets.length ≤ cfg.max_pool_size ∧
    st.in_use_count + st.sem_permits ≤ cfg.max_concurrent_users := by
  induction h with
  | init => simp [ZMQSocketPool.initState]
  | get_ok st ep sock st' hr heq ih =>
    unfold ZMQSocketPool.get_socket_async at heq
    by_cases hsem : st.sem_permits = 0
    · rw [if_pos hsem] at heq
      cases heq
    · rw [if_neg hsem] at heq
      cases hx : ZMQSocketPool.extractFirstForEndpoint ep st.socket_endpoints
          st.available_sockets with
      | some p =>
        obtain ⟨s, rest⟩ := p
        rw [hx] at heq
        injection heq with hsock hst
        subst hst
        have hlen := extractFirstForEndpoint_length ep st.socket_endpoints
          st.available_sockets s rest hx
        dsimp only
        constructor
        · omega
        · omega
      | none =>
        rw [hx] at heq
        cases hav : st.available_sockets with
        | cons a as =>
          rw [hav] at heq
          injection heq with hsock hst
          subst hst
          rw [hav] at ih
          simp only [List.length_cons] at ih
          dsimp only
          constructor
          · omega
          · omega
        | nil =>
          rw [hav] at heq
          by_cases hcap : st.in_use_count < cfg.max_pool_size
          · rw [if_pos hcap] at heq
            injection heq with hsock hst
            subst hst
            dsimp only
            constructor
            · simp only [List.length_nil]
              omega
            · omega
          · rw [if_neg hcap] at heq
            cases heq
  | ret st sock hr hpos ih =>
    obtain ⟨ih1, ih2⟩ := ih
    have hnoev : ¬cfg.max_pool_size ≤ st.available_sockets.length := by omega
    unfold ZMQSocketPool.return_socket
    rw [if_neg hnoev]
    dsimp only
    constructor
    · simp only [List.length_append, List.length_cons, List.length_nil]
      omega
    · omega
  | close st hr ih =>
    obtain ⟨ih1, ih2⟩ := ih
    unfold ZMQSocketPool.close_all
    dsimp only
    constructor
    · simp only [List.length_nil]
      omega
    · omega

/-- C7: after every completed get_socket_async, return_socket and
close_all operation from a fresh pool, the number of in-use handles plus
the number of idle handles is at most max_pool_size and the number of
in-use handles is at most max_concurrent_users. -/
theorem socket_pool_invariant (cfg : ZMQSocketPoolConfig)
    (st : ZMQSocketPoolState) (h : ZMQSocketPool.Reachable cfg st) :
    st.in_use_count + st.available_sockets.length ≤ cfg.max_pool_size ∧
    st.in_use_count ≤ cfg.max_concurrent_users := by
  obtain ⟨h1, h2⟩ := pool_reachable_invariant cfg st h
  exact ⟨h1, by omega⟩

/-- Witness for C7: the pool state after one socket acquisition from a
fresh pool with the engine's limits (25 sockets, 10 users) satisfies both
bounds. -/
theorem socket_pool_invariant_witness :
    ((⟨[], [(0, "tcp://localhost:5558")], 1, 9, 1⟩ :
        ZMQSocketPoolState).in_use_count +
      (⟨[], [(0, "tcp://localhost:5558")], 1, 9, 1⟩ :
        ZMQSocketPoolState).available_sockets.length ≤
      (⟨25, 10⟩ : ZMQSocketPoolConfig).max_pool_size) ∧
    ((⟨[], [(0, "tcp://localhost:5558")], 1, 9, 1⟩ :
        ZMQSocketPoolState).in_use_count ≤
      (⟨25, 10⟩ : ZMQSocketPoolConfig).max_concurrent_users) :=
  socket_pool_invariant ⟨25, 10⟩ ⟨[], [(0, "tcp://localhost:5558")], 1, 9, 1⟩
    (ZMQSocketPool.Reachable.get_ok (ZMQSocketPool.initState ⟨25, 10⟩)
      "tcp://localhost:5558" 0 ⟨[], [(0, "tcp://localhost:5558")], 1, 9, 1⟩
      ZMQSocketPool.Reachable.init (by decide))
